import Mathlib

/-
Verification of src/infra/recipe_modules/crosvm/examples/container_build_context.py.

The example recipe is:

  def RunSteps(api):
      with api.crosvm.container_build_context():
          api.crosvm.step_in_container("Build", ["cargo", "build"])

  def GenTests(api):
      yield api.test("basic")

The crosvm recipe module that provides container_build_context and
step_in_container is an external collaborator and is not part of this
source snapshot; its observable behaviour is modelled from the spec
(sections 4.1, 6 and 7).  The runner itself is embedded as a function
from the collaborator responses of one invocation to the sequence of
collaborator calls it makes plus its outcome; the Python with-statement
is embedded by an explicit enter/body/teardown combinator.
-/

namespace CrosvmRecipe

/-- A collaborator call observable by the harness during one invocation:
acquiring the container build context, executing a labelled command inside
it, or releasing the context. -/
inductive Call where
  | acquire : Call
  | execute : String → List String → Call
  | release : Call
deriving DecidableEq, Repr

/-- Result of a command execution inside the container, as the spec section 6
describes it: exit code together with captured output. -/
structure ExecutionResult where
  exit_code : Int
  stdout : String
  stderr : String
deriving DecidableEq, Repr

/-- The two error kinds of the spec section 7: the container environment could
not be created, or the command inside the container returned non-zero. -/
inductive RunError where
  | contextAcquisitionError : RunError
  | stepExecutionError : RunError
deriving DecidableEq, Repr

/-- The responses the external collaborators give during one invocation:
whether context acquisition succeeds, whether the single step raises
StepExecutionError, and the ExecutionResult returned when it does not. -/
structure Collaborator where
  acquireOk : Bool
  execRaises : Bool
  execResult : ExecutionResult
deriving DecidableEq, Repr

/-- The sequence of collaborator calls made so far. -/
abbrev Trace := List Call

/-- A recipe action: takes the call trace so far, appends the collaborator
calls it makes, and either returns a value or raises an error. -/
def Action (α : Type) : Type := Trace → Trace × Except RunError α

/-- An action that makes no collaborator call and returns its argument. -/
def pureA {α : Type} (a : α) : Action α := fun t => (t, Except.ok a)

/-- Sequencing of recipe actions: the second runs only when the first did not
raise; a raised error short-circuits. -/
def bindA {α β : Type} (m : Action α) (f : α → Action β) : Action β := fun t =>
  match m t with
  | (t1, Except.ok a) => f a t1
  | (t1, Except.error e) => (t1, Except.error e)

/-- Python with-statement semantics for a scoped resource: the enter action
runs first, and if it raises nothing else runs; otherwise the body runs on the
returned handle, and the teardown action runs on every exit path — after a
normal body and after a raising body alike — before the body's outcome
propagates. -/
def withCtx {α β : Type} (enter : Action α) (teardown : Action Unit)
    (body : α → Action β) : Action β :=
  bindA enter (fun a => fun t =>
    match body a t with
    | (t1, Except.ok b) =>
      match teardown t1 with
      | (t2, Except.ok _) => (t2, Except.ok b)
      | (t2, Except.error e) => (t2, Except.error e)
    | (t1, Except.error e) => ((teardown t1).1, Except.error e))

/-- The scoped container handle of the spec section 3; it carries no data
visible to the runner. -/
structure ContextHandle where
  token : Unit
deriving DecidableEq, Repr

/-- Modelled from the spec: entering api.crosvm.container_build_context().
The crosvm recipe module is not in this source snapshot; per spec section 4.1
operation 1, it requests a containerized environment and returns a scoped
handle, or fails with ContextAcquisitionError when no container can be
provisioned. -/
def acquire_build_context (env : Collaborator) : Action ContextHandle := fun t =>
  if env.acquireOk then (t ++ [Call.acquire], Except.ok (ContextHandle.mk ()))
  else (t ++ [Call.acquire], Except.error RunError.contextAcquisitionError)

/-- Modelled from the spec: leaving the container_build_context() scope.
Per spec sections 3 and 4.1, the handle is released on any exit from the
scope, tearing down the container. -/
def release_build_context : Action Unit := fun t =>
  (t ++ [Call.release], Except.ok ())

/-- Modelled from the spec: api.crosvm.step_in_container(label, command).
Per spec section 4.1 operation 2, it executes the command inside the container
and returns the ExecutionResult, or raises StepExecutionError on a non-zero
exit status. -/
def step_in_container (env : Collaborator) (label : String)
    (command : List String) : Action ExecutionResult := fun t =>
  if env.execRaises then
    (t ++ [Call.execute label command], Except.error RunError.stepExecutionError)
  else
    (t ++ [Call.execute label command], Except.ok env.execResult)

/-- Embedding of RunSteps from container_build_context.py: a with-block on
api.crosvm.container_build_context() whose body is the single statement
api.crosvm.step_in_container("Build", ["cargo", "build"]); the statement
discards the value step_in_container returns. -/
def RunStepsA (env : Collaborator) : Action Unit :=
  withCtx (acquire_build_context env) release_build_context
    (fun _ =>
      bindA (step_in_container env "Build" ["cargo", "build"])
        (fun _ => pureA ()))

/-- One invocation of the runner by the harness, starting from an empty call
trace: the calls it makes and its outcome. -/
def RunSteps (env : Collaborator) : Trace × Except RunError Unit :=
  RunStepsA env []

/-- A registered test scenario: its name and the input overrides supplied to
it. -/
structure TestCase where
  name : String
  overrides : List String
deriving DecidableEq, Repr

/-- api.test of the recipe harness called with a name and no further
arguments: a test case carrying no input overrides. -/
def test (name : String) : TestCase := TestCase.mk name []

/-- Embedding of GenTests from container_build_context.py: the generator
yields the single test case api.test("basic"). -/
def GenTests : List TestCase := [test "basic"]

/-- Full characterisation of the runner on an arbitrary starting trace:
when acquisition succeeds the calls appended are acquire, the "Build" step,
then release, and the outcome is an error exactly when the step raises;
when acquisition fails the only call appended is the acquire attempt and
the acquisition error is the outcome. -/
theorem runStepsA_spec (env : Collaborator) (t : Trace) :
    RunStepsA env t =
      if env.acquireOk then
        (t ++ [Call.acquire, Call.execute "Build" ["cargo", "build"], Call.release],
          if env.execRaises then Except.error RunError.stepExecutionError
          else Except.ok ())
      else (t ++ [Call.acquire], Except.error RunError.contextAcquisitionError) := by
  obtain ⟨ok, raises, res⟩ := env
  cases ok <;> cases raises <;>
    simp [RunStepsA, withCtx, bindA, pureA, acquire_build_context,
      release_build_context, step_in_container]

/-- Claim C1: whenever context acquisition succeeds, an invocation of the
runner makes exactly the calls acquire, then execute with label "Build" and
command cargo build, then release, in that order, regardless of the execution
outcome (the step may raise or return any result). -/
theorem C1_basic_call_sequence (env : Collaborator) (h : env.acquireOk = true) :
    (RunSteps env).1 =
      [Call.acquire, Call.execute "Build" ["cargo", "build"], Call.release] := by
  simp [RunSteps, runStepsA_spec, h]

/-- Witness for C1 at a collaborator whose step raises. -/
theorem C1_basic_call_sequence_witness :
    (Collaborator.mk true true (ExecutionResult.mk 101 "" "")).acquireOk = true ∧
      (RunSteps (Collaborator.mk true true (ExecutionResult.mk 101 "" ""))).1 =
        [Call.acquire, Call.execute "Build" ["cargo", "build"], Call.release] :=
  ⟨rfl, C1_basic_call_sequence
    (Collaborator.mk true true (ExecutionResult.mk 101 "" "")) rfl⟩

/-- Claim C2: whenever acquisition succeeded, the context release happens on
every exit path of the runner — the last call of the trace is the release and
it happens exactly once — and when the step raises, the StepExecutionError
still propagates as the outcome after that release. -/
theorem C2_release_on_all_exit_paths (env : Collaborator)
    (h : env.acquireOk = true) :
    (RunSteps env).1.getLast? = some Call.release ∧
      (RunSteps env).1.count Call.release = 1 ∧
      (RunSteps env).2 =
        (if env.execRaises then Except.error RunError.stepExecutionError
         else Except.ok ()) := by
  cases h2 : env.execRaises <;>
    simp [RunSteps, runStepsA_spec, h, h2]

/-- Witness for C2 at a collaborator whose step returns non-zero. -/
theorem C2_release_on_all_exit_paths_witness :
    (Collaborator.mk true true (ExecutionResult.mk 1 "o" "e")).acquireOk = true ∧
      ((RunSteps (Collaborator.mk true true (ExecutionResult.mk 1 "o" "e"))).1.getLast?
          = some Call.release ∧
        (RunSteps (Collaborator.mk true true (ExecutionResult.mk 1 "o" "e"))).1.count
            Call.release = 1 ∧
        (RunSteps (Collaborator.mk true true (ExecutionResult.mk 1 "o" "e"))).2 =
          (if (Collaborator.mk true true (ExecutionResult.mk 1 "o" "e")).execRaises then
            Except.error RunError.stepExecutionError
           else Except.ok ())) :=
  ⟨rfl, C2_release_on_all_exit_paths
    (Collaborator.mk true true (ExecutionResult.mk 1 "o" "e")) rfl⟩

/-- Claim C3: when acquisition fails, the runner's whole behaviour is the
single failed acquire attempt with the ContextAcquisitionError as outcome; in
particular the step execution is never called. -/
theorem C3_acquire_failure_no_step (env : Collaborator)
    (h : env.acquireOk = false) :
    RunSteps env = ([Call.acquire], Except.error RunError.contextAcquisitionError) ∧
      Call.execute "Build" ["cargo", "build"] ∉ (RunSteps env).1 := by
  refine ⟨?_, ?_⟩ <;> simp [RunSteps, runStepsA_spec, h]

/-- Witness for C3 at a collaborator whose acquisition fails. -/
theorem C3_acquire_failure_no_step_witness :
    (Collaborator.mk false false (ExecutionResult.mk 0 "" "")).acquireOk = false ∧
      (RunSteps (Collaborator.mk false false (ExecutionResult.mk 0 "" "")) =
          ([Call.acquire], Except.error RunError.contextAcquisitionError) ∧
        Call.execute "Build" ["cargo", "build"] ∉
          (RunSteps (Collaborator.mk false false (ExecutionResult.mk 0 "" ""))).1) :=
  ⟨rfl, C3_acquire_failure_no_step
    (Collaborator.mk false false (ExecutionResult.mk 0 "" "")) rfl⟩

/-- Claim C4: the runner is deterministic with no hidden state between
invocations: from any prior call history the calls it appends and the outcome
it produces are exactly those of a fresh invocation with the same collaborator
responses, so two invocations with the same configuration produce identical
call sequences. -/
theorem C4_deterministic_no_hidden_state (env : Collaborator) (t : Trace) :
    (RunStepsA env t).1 = t ++ (RunSteps env).1 ∧
      (RunStepsA env t).2 = (RunSteps env).2 := by
  cases h1 : env.acquireOk <;> simp [RunSteps, runStepsA_spec, h1]

/-- Claim C5: collaborator errors propagate unchanged and nothing is retried
or swallowed: the outcome is exactly the error the collaborator raised (ok
only when nothing raised), acquisition is attempted exactly once, and the step
is attempted at most once. -/
theorem C5_errors_propagate_unretried (env : Collaborator) :
    (RunSteps env).2 =
      (if env.acquireOk then
        (if env.execRaises then Except.error RunError.stepExecutionError
         else Except.ok ())
       else Except.error RunError.contextAcquisitionError) ∧
      (RunSteps env).1.count Call.acquire = 1 ∧
      (RunSteps env).1.count (Call.execute "Build" ["cargo", "build"]) ≤ 1 := by
  cases h1 : env.acquireOk <;> cases h2 : env.execRaises <;>
    simp [RunSteps, runStepsA_spec, h1, h2]

/-- Claim C6: every execution ends in exactly one of the terminal states:
Completed exactly when acquisition and the step both succeed,
ContextAcquisitionError exactly when acquisition fails, StepExecutionError
exactly when the step fails; and after an acquisition failure no step is
executed at all (the step runs exactly when acquisition succeeded). -/
theorem C6_terminal_states (env : Collaborator) :
    ((RunSteps env).2 = Except.ok () ↔
        (env.acquireOk = true ∧ env.execRaises = false)) ∧
      ((RunSteps env).2 = Except.error RunError.contextAcquisitionError ↔
        env.acquireOk = false) ∧
      ((RunSteps env).2 = Except.error RunError.stepExecutionError ↔
        (env.acquireOk = true ∧ env.execRaises = true)) ∧
      (RunSteps env).1.count (Call.execute "Build" ["cargo", "build"]) =
        (if env.acquireOk then 1 else 0) := by
  cases h1 : env.acquireOk <;> cases h2 : env.execRaises <;>
    simp [RunSteps, runStepsA_spec, h1, h2]

/-- Claim C7: the test-registration function registers exactly one scenario,
named "basic", and supplies no input overrides to it. -/
theorem C7_single_basic_scenario :
    GenTests = [TestCase.mk "basic" []] ∧ GenTests.length = 1 ∧
      (test "basic").overrides = [] :=
  ⟨rfl, rfl, rfl⟩

/-- Claim C8: the runner discards the value the step execution returns — for
any two ExecutionResults the collaborator might return, with the other
responses equal, the runner's calls and outcome are identical. -/
theorem C8_step_result_discarded (ok raises : Bool) (r1 r2 : ExecutionResult) :
    RunSteps (Collaborator.mk ok raises r1) =
      RunSteps (Collaborator.mk ok raises r2) := by
  cases ok <;> cases raises <;> simp [RunSteps, runStepsA_spec]

/-- Claim C9: the runner makes no collaborator call outside the context scope
and none besides the single step inside it — its trace is exactly acquire,
step, release when acquisition succeeds, and exactly the acquire attempt when
it fails. -/
theorem C9_no_extra_calls (env : Collaborator) :
    (RunSteps env).1 =
      (if env.acquireOk then
        [Call.acquire, Call.execute "Build" ["cargo", "build"], Call.release]
       else [Call.acquire]) := by
  cases h1 : env.acquireOk <;> simp [RunSteps, runStepsA_spec, h1]

end CrosvmRecipe
